import Mathlib

/-!
Verification of the authentication and request-admission layer of a
contacts REST API.  The repository code under `src/repository/users.py`,
`src/repository/contacts.py` and `src/database/models.py` is embedded
directly; the token codec, session manager, confirmation-token service
and admission gate live in modules absent from the source tree
(`src/services/auth.py`, `src/routes/auth.py`, the limiter library), so
those are modelled from the specification and wired to the embedded
repository functions.
-/

namespace HW11

/-! ## Data model (from `src/database/models.py` and `src/schemas.py`) -/

/-- Account record, from the `User` model in `src/database/models.py`.
`refresh_token` is the nullable `String` column holding the single live
refresh token; `confirmed` defaults to `False`; `avatar` is nullable.
The `created_at` timestamp column plays no role in any claim and is
omitted. -/
structure User where
  id : Nat
  username : String
  email : String
  password : String
  avatar : Option String
  refresh_token : Option String
  confirmed : Bool
deriving DecidableEq, Repr

/-- Calendar date, standing in for Python `datetime.date`. -/
structure AppDate where
  year : Nat
  month : Nat
  day : Nat
deriving DecidableEq, Repr

/-- Chronological order on dates: Python compares `date` values
chronologically, which for well-formed dates is the lexicographic order
on (year, month, day). -/
def dateLe (a b : AppDate) : Bool :=
  a.year < b.year ||
    (a.year == b.year &&
      (a.month < b.month || (a.month == b.month && a.day ≤ b.day)))

/-- Gregorian leap-year rule, as used by Python `datetime`. -/
def isLeap (y : Nat) : Bool :=
  y % 4 == 0 && (y % 100 != 0 || y % 400 == 0)

/-- Number of days in a month of the proleptic Gregorian calendar. -/
def daysInMonth (y m : Nat) : Nat :=
  if m == 2 then (if isLeap y then 29 else 28)
  else if m == 4 || m == 6 || m == 9 || m == 11 then 30
  else 31

/-- Successor day in the Gregorian calendar. -/
def nextDay (d : AppDate) : AppDate :=
  if d.day < daysInMonth d.year d.month then ⟨d.year, d.month, d.day + 1⟩
  else if d.month < 12 then ⟨d.year, d.month + 1, 1⟩
  else ⟨d.year + 1, 1, 1⟩

/-- Adding `n` days to a date, standing in for `timedelta(days=n)`. -/
def addDays : Nat → AppDate → AppDate
  | 0, d => d
  | n + 1, d => addDays n (nextDay d)

/-- Python `date.replace(year=y)`: keeps month and day, swaps the year;
raises `ValueError` (here: `none`) when the day does not exist in the
target month of the target year (Feb 29 into a non-leap year). -/
def replaceYear (y : Nat) (d : AppDate) : Option AppDate :=
  if d.day ≤ daysInMonth y d.month then some ⟨y, d.month, d.day⟩ else none

/-- Contact record, from the `Contact` model in
`src/database/models.py`.  `user_id` is a nullable foreign key
(`default=None`), so it is an `Option Nat`; the `created_at` column is
omitted as in `User`. -/
structure Contact where
  id : Nat
  firstname : String
  lastname : String
  email : String
  phone_number : String
  date_of_birth : AppDate
  relationships : String
  user_id : Option Nat
deriving DecidableEq, Repr

/-- Registration payload, from `UserModel` in `src/schemas.py` (length
bounds on the fields are request validation, not data). -/
structure UserModel where
  username : String
  email : String
  password : String
deriving DecidableEq, Repr

/-- Contact payload, from `ContactModel` in `src/schemas.py`.
`ContactUpdate` declares exactly the same fields, so one structure
serves both. -/
structure ContactModel where
  firstname : String
  lastname : String
  phone_number : String
  email : String
  date_of_birth : AppDate
  relationships : String
deriving DecidableEq, Repr

/-! ## User repository (from `src/repository/users.py`)

The SQLAlchemy session is modelled as the list of `User` rows; a
committed mutation is the updated list. -/

/-- Embeds `get_user_by_email`: first row whose email matches. -/
def get_user_by_email (email : String) (db : List User) : Option User :=
  db.find? (fun u => u.email == email)

/-- Embeds `create_user`: builds the row from the request body plus the
externally fetched avatar URL (Gravatar, `None` on failure).  The
`refresh_token` and `confirmed` columns are not assigned, so they take
the column defaults `NULL` and `False` from `models.py`; `id` is the
primary key the database assigns. -/
def create_user (body : UserModel) (avatar : Option String) (newId : Nat) : User :=
  { id := newId
    username := body.username
    email := body.email
    password := body.password
    avatar := avatar
    refresh_token := none
    confirmed := false }

/-- Embeds `update_token`: sets `user.refresh_token = token` and
commits, i.e. rewrites that user's row. -/
def update_token (user : User) (token : Option String) (db : List User) : List User :=
  db.map (fun u => if u.id == user.id then { u with refresh_token := token } else u)

/-- Row rewrite of `confirmed_email`: sets `confirmed = True` on the
row with the given id. -/
def setConfirmed (uid : Nat) (v : User) : User :=
  if v.id == uid then { v with confirmed := true } else v

/-- Embeds `confirmed_email`: looks the user up by email and sets
`confirmed = True`.  When no user exists the Python code dereferences
`None` and raises `AttributeError`; that crash is the `none` outcome. -/
def confirmed_email (email : String) (db : List User) : Option (List User) :=
  match get_user_by_email email db with
  | none => none
  | some u => some (db.map (setConfirmed u.id))

/-- Embeds `update_avatar`: looks the user up by email, sets the avatar
URL and returns the user; crashes (`none`) when the email is unknown. -/
def update_avatar (email : String) (url : String) (db : List User) :
    Option (User × List User) :=
  match get_user_by_email email db with
  | none => none
  | some u =>
      some ({ u with avatar := some url },
        db.map (fun v => if v.id == u.id then { v with avatar := some url } else v))

/-! ## Contact repository (from `src/repository/contacts.py`) -/

/-- The ownership filter `Contact.user_id == user.id` used by every
query in `src/repository/contacts.py` (SQL `NULL == x` is false, hence
the `some`). -/
def ownedBy (user : User) (c : Contact) : Bool :=
  c.user_id == some user.id

/-- Embeds `get_contacts`: the user's contacts with `offset(skip)` and
`limit(limit)`. -/
def get_contacts (user : User) (skip limit : Nat) (db : List Contact) : List Contact :=
  ((db.filter (ownedBy user)).drop skip).take limit

/-- Embeds `get_contact`: first row with the given id owned by the
user. -/
def get_contact (user : User) (contact_id : Nat) (db : List Contact) : Option Contact :=
  db.find? (fun c => c.id == contact_id && ownedBy user c)

/-- Embeds `create_contact`: inserts a row built from the body, owned
by the user; `newId` is the database-assigned primary key. -/
def create_contact (body : ContactModel) (user : User) (newId : Nat)
    (db : List Contact) : Contact × List Contact :=
  let c : Contact :=
    { id := newId
      firstname := body.firstname
      lastname := body.lastname
      email := body.email
      phone_number := body.phone_number
      date_of_birth := body.date_of_birth
      relationships := body.relationships
      user_id := some user.id }
  (c, db ++ [c])

/-- Removes the first row satisfying `p` (SQLAlchemy `delete` of the
row `first()` returned). -/
def eraseFirst (p : Contact → Bool) : List Contact → List Contact
  | [] => []
  | c :: t => if p c then t else c :: eraseFirst p t

/-- Embeds `remove_contact`: fetches the row with `first()` under the
id-and-owner filter; when present deletes it and returns it, otherwise
returns `None` leaving the store untouched. -/
def remove_contact (user : User) (contact_id : Nat) (db : List Contact) :
    Option Contact × List Contact :=
  match db.find? (fun c => c.id == contact_id && ownedBy user c) with
  | none => (none, db)
  | some c => (some c, eraseFirst (fun x => x.id == contact_id && ownedBy user x) db)

/-- Field assignments of `update_contact`. -/
def applyUpdate (body : ContactModel) (c : Contact) : Contact :=
  { c with
    firstname := body.firstname
    lastname := body.lastname
    phone_number := body.phone_number
    email := body.email
    date_of_birth := body.date_of_birth
    relationships := body.relationships }

/-- Rewrites the first row satisfying `p` with `f`. -/
def updateFirst (p : Contact → Bool) (f : Contact → Contact) : List Contact → List Contact
  | [] => []
  | c :: t => if p c then f c :: t else c :: updateFirst p f t

/-- Embeds `update_contact`: fetches the row under the id-and-owner
filter; when present overwrites its fields from the body and returns
the updated row, otherwise returns `None` leaving the store
untouched. -/
def update_contact (user : User) (contact_id : Nat) (body : ContactModel)
    (db : List Contact) : Option Contact × List Contact :=
  match db.find? (fun c => c.id == contact_id && ownedBy user c) with
  | none => (none, db)
  | some c =>
      (some (applyUpdate body c),
        updateFirst (fun x => x.id == contact_id && ownedBy user x) (applyUpdate body) db)

/-- The loop body of `get_birthdays`: for each contact, move its birth
date into the current year (`replace(year=today.year)`, which can
raise, hence `none`) and keep it when that date falls within the next
seven days. -/
def birthScan (today : AppDate) : List Contact → Option (List Contact)
  | [] => some []
  | c :: t =>
      match replaceYear today.year c.date_of_birth with
      | none => none
      | some b =>
          match birthScan today t with
          | none => none
          | some r =>
              some (if dateLe today b && dateLe b (addDays 7 today) then c :: r else r)

/-- Embeds `get_birthdays`: scans the user's contacts for birthdays in
the coming week; `today` stands for `datetime.now().date()`. -/
def get_birthdays (user : User) (today : AppDate) (db : List Contact) :
    Option (List Contact) :=
  birthScan today (db.filter (ownedBy user))

/-- Python truthiness of the optional query parameters in
`find_contacts`: `if firstname:` is false for `None` and for the empty
string. -/
def truthy : Option String → Bool
  | none => false
  | some s => s != ""

/-- Character-list match at the head. -/
def leadMatch : List Char → List Char → Bool
  | [], _ => true
  | _ :: _, [] => false
  | p :: ps, c :: cs => p == c && leadMatch ps cs

/-- Substring test over character lists. -/
def containsSub (pat : List Char) : List Char → Bool
  | [] => pat.isEmpty
  | c :: t => leadMatch pat (c :: t) || containsSub pat t

/-- Lower-cased character list of a string. -/
def lowerChars (s : String) : List Char :=
  s.data.map Char.toLower

/-- SQL `ilike '%pat%'`: case-insensitive substring containment. -/
def ilike (hay pat : String) : Bool :=
  containsSub (lowerChars pat) (lowerChars hay)

/-- Embeds `find_contacts`: starts from the user's contacts and applies
each `ilike` filter only when the corresponding parameter is truthy. -/
def find_contacts (db : List Contact) (user : User)
    (firstname lastname email : Option String) : List Contact :=
  let q0 := db.filter (ownedBy user)
  let q1 := if truthy firstname
    then q0.filter (fun c => ilike c.firstname (firstname.getD "")) else q0
  let q2 := if truthy lastname
    then q1.filter (fun c => ilike c.lastname (lastname.getD "")) else q1
  if truthy email then q2.filter (fun c => ilike c.email (email.getD "")) else q2

/-! ## Token codec

Modelled from the spec: the `Auth` service (`src/services/auth.py`) is
absent from the source tree; §4.1 specifies
`encode(claims) -> token_string` and
`decode(token_string) -> claims | fails(InvalidSignature | Expired |
Malformed)`, with the signature verified before any claim field is
trusted and `expires-at` checked afterwards against the current time. -/

/-- Claim scope, `scope ∈ \x7baccess, refresh, email-confirm\x7d` (§3). -/
inductive Scope where
  | access
  | refresh
  | emailConfirm
deriving DecidableEq, Repr

/-- Wire form of a scope. -/
def scopeToStr : Scope → String
  | .access => "access"
  | .refresh => "refresh"
  | .emailConfirm => "email-confirm"

/-- Parses a scope from its wire form. -/
def strToScope (s : String) : Option Scope :=
  if s = "access" then some .access
  else if s = "refresh" then some .refresh
  else if s = "email-confirm" then some .emailConfirm
  else none

/-- Claim set of a token: `subject`, `scope`, `issued-at`,
`expires-at` (§3); times are seconds. -/
structure Claims where
  subject : String
  scope : Scope
  iat : Nat
  exp : Nat
deriving DecidableEq, Repr

/-- Modelled from the spec: the claim payload serialised for signing. -/
def payloadString (c : Claims) : String :=
  c.subject ++ "|" ++ scopeToStr c.scope ++ "|" ++ toString c.iat
    ++ "|" ++ toString c.exp

/-- Modelled from the spec: a keyed signature over the payload, a pure
function of the process-wide secret key and the claim set (§4.1); any
deterministic keyed digest fits the model. -/
def signPayload (key : Nat) (p : String) : Nat :=
  p.data.foldl (fun h ch => (h * 131 + ch.toNat + 1) % 1000003) (key % 1000003)

/-- Modelled from the spec: `encode(claims) -> token_string`, the
signed claim set as an opaque string (§4.1). -/
def encode (key : Nat) (c : Claims) : String :=
  payloadString c ++ "|" ++ toString (signPayload key (payloadString c))

/-- Splits a character list at every occurrence of `sep`. -/
def splitChar (sep : Char) : List Char → List (List Char)
  | [] => [[]]
  | c :: t =>
      match splitChar sep t with
      | [] => if c == sep then [[], []] else [[c]]
      | h :: rest => if c == sep then [] :: h :: rest else (c :: h) :: rest

/-- Value of a decimal digit character. -/
def digitVal (c : Char) : Option Nat :=
  if 48 ≤ c.toNat && c.toNat ≤ 57 then some (c.toNat - 48) else none

/-- Accumulator loop of decimal parsing. -/
def digitsToNatAux : List Char → Nat → Option Nat
  | [], acc => some acc
  | c :: t, acc =>
      match digitVal c with
      | none => none
      | some d => digitsToNatAux t (acc * 10 + d)

/-- Parses a non-empty decimal digit string. -/
def digitsToNat : List Char → Option Nat
  | [] => none
  | c :: t => digitsToNatAux (c :: t) 0

/-- Splits a token string back into claims plus transmitted signature;
`none` is the `Malformed` outcome. -/
def parseToken (t : String) : Option (Claims × Nat) :=
  match splitChar '|' t.data with
  | [subj, sc, iatL, expL, sigL] =>
      match strToScope (String.mk sc), digitsToNat iatL,
          digitsToNat expL, digitsToNat sigL with
      | some scope, some iat, some exp, some sig =>
          some (⟨String.mk subj, scope, iat, exp⟩, sig)
      | _, _, _, _ => none
  | _ => none

/-- Codec failures of §4.1. -/
inductive DecodeErr where
  | malformed
  | invalidSignature
  | expired
deriving DecidableEq, Repr

/-- Modelled from the spec: `decode` parses, verifies the signature
before trusting any claim field, then checks `expires-at` against the
current time (§4.1). -/
def decode (key now : Nat) (t : String) : Except DecodeErr Claims :=
  match parseToken t with
  | none => .error .malformed
  | some (c, sig) =>
      if sig = signPayload key (payloadString c) then
        if c.exp < now then .error .expired else .ok c
      else .error .invalidSignature

/-- Boolean success test for `Except`. -/
def exceptIsOk : Except ε α → Bool
  | .ok _ => true
  | .error _ => false

instance exceptDecEq [DecidableEq ε] [DecidableEq α] : DecidableEq (Except ε α) :=
  fun x y =>
    match x, y with
    | .ok a, .ok b =>
        if h : a = b then .isTrue (h ▸ rfl)
        else .isFalse (fun hc => h (by injection hc))
    | .ok a, .error b => .isFalse (fun hc => Except.noConfusion hc)
    | .error a, .ok b => .isFalse (fun hc => Except.noConfusion hc)
    | .error a, .error b =>
        if h : a = b then .isTrue (h ▸ rfl)
        else .isFalse (fun hc => h (by injection hc))

/-! ## Session manager and confirmation service

Modelled from the spec: `src/services/auth.py` and `src/routes/auth.py`
are absent from the source tree; §4.2 and §4.3 specify `issue_pair`,
`authenticate`, `refresh`, `revoke` and `consume`.  The store writes go
through the embedded `update_token` and `confirmed_email` from
`src/repository/users.py`. -/

/-- Error taxonomy of §7. -/
inductive AuthErr where
  | malformed
  | invalidSignature
  | expired
  | wrongScope
  | revokedSession
  | accountNotFound
  | rateLimited
deriving DecidableEq, Repr

/-- Injects codec failures into the §7 taxonomy. -/
def ofDecodeErr : DecodeErr → AuthErr
  | .malformed => .malformed
  | .invalidSignature => .invalidSignature
  | .expired => .expired

/-- Modelled from the spec: the immutable configuration object of §9 —
signing secret and the three token lifetimes. -/
structure TokenConfig where
  key : Nat
  accessLife : Nat
  refreshLife : Nat
  confirmLife : Nat
deriving DecidableEq, Repr

/-- Mints an access token for a subject (§4.2). -/
def mkAccessToken (cfg : TokenConfig) (now : Nat) (email : String) : String :=
  encode cfg.key ⟨email, .access, now, now + cfg.accessLife⟩

/-- Mints a refresh token for a subject (§4.2). -/
def mkRefreshToken (cfg : TokenConfig) (now : Nat) (email : String) : String :=
  encode cfg.key ⟨email, .refresh, now, now + cfg.refreshLife⟩

/-- Mints an email-confirmation token for a subject (§4.3). -/
def mkConfirmToken (cfg : TokenConfig) (now : Nat) (email : String) : String :=
  encode cfg.key ⟨email, .emailConfirm, now, now + cfg.confirmLife⟩

/-- Modelled from the spec: `issue_pair(account)` mints both tokens
with scope-appropriate expiries and overwrites the account's stored
refresh token via the embedded `update_token` (§4.2). -/
def issue_pair (cfg : TokenConfig) (now : Nat) (u : User) (db : List User) :
    (String × String) × List User :=
  let a := mkAccessToken cfg now u.email
  let r := mkRefreshToken cfg now u.email
  ((a, r), update_token u (some r) db)

/-- Modelled from the spec: `authenticate(access_token)` decodes,
rejects wrong scopes, and resolves the subject through the embedded
`get_user_by_email`; it never touches the refresh field (§4.2). -/
def authenticate (cfg : TokenConfig) (now : Nat) (t : String) (db : List User) :
    Except AuthErr User :=
  match decode cfg.key now t with
  | .error e => .error (ofDecodeErr e)
  | .ok c =>
      if c.scope = Scope.access then
        match get_user_by_email c.subject db with
        | none => .error .accountNotFound
        | some u => .ok u
      else .error .wrongScope

/-- Modelled from the spec: `refresh(refresh_token)` decodes, rejects
wrong scopes, resolves the subject, fails with `RevokedSession` when
the presented string differs from the stored `current_refresh_token`,
and otherwise rotates atomically via `issue_pair` (§4.2, §5). -/
def refresh (cfg : TokenConfig) (now : Nat) (t : String) (db : List User) :
    Except AuthErr ((String × String) × List User) :=
  match decode cfg.key now t with
  | .error e => .error (ofDecodeErr e)
  | .ok c =>
      if c.scope = Scope.refresh then
        match get_user_by_email c.subject db with
        | none => .error .accountNotFound
        | some u =>
            if u.refresh_token = some t then .ok (issue_pair cfg now u db)
            else .error .revokedSession
      else .error .wrongScope

/-- Modelled from the spec: `revoke(account)` clears the stored refresh
token via the embedded `update_token` (§4.2). -/
def revoke (u : User) (db : List User) : List User :=
  update_token u none db

/-- Modelled from the spec: `consume(confirm_token)` decodes, checks
the scope, resolves the subject (`AccountNotFound` when it does not
resolve), succeeds idempotently on an already-confirmed account, and
otherwise flips the flag via the embedded `confirmed_email` (§4.3). -/
def consume (cfg : TokenConfig) (now : Nat) (t : String) (db : List User) :
    Except AuthErr (List User) :=
  match decode cfg.key now t with
  | .error e => .error (ofDecodeErr e)
  | .ok c =>
      if c.scope = Scope.emailConfirm then
        match get_user_by_email c.subject db with
        | none => .error .accountNotFound
        | some u =>
            if u.confirmed then .ok db
            else
              match confirmed_email c.subject db with
              | none => .error .accountNotFound
              | some db1 => .ok db1
      else .error .wrongScope

/-- Collapses an internal failure to the wire response (§7): every
token-validation failure is a uniform 401 `Unauthorized`; only
`RateLimited` surfaces distinctly as 429. -/
inductive WireResponse where
  | unauthorized
  | tooManyRequests (retryAfter : Nat)
deriving DecidableEq, Repr

/-- Modelled from the spec: the response-boundary mapping of §7. -/
def toResponse : AuthErr → WireResponse
  | .rateLimited => .tooManyRequests 0
  | _ => .unauthorized

/-! ## Admission gate

Modelled from the spec: the limiter is the external `fastapi_limiter`
dependency; §4.4 specifies the per-key state machine.  The per-route
configuration `times=2, seconds=5` is embedded from the
`create_contact` route in `src/routes/contacts.py`. -/

/-- Per-route limit configuration; `RateLimiter(times=..., seconds=...)`. -/
structure RouteLimit where
  times : Nat
  seconds : Nat
deriving DecidableEq, Repr

/-- Embeds the `create_contact` route decoration
`RateLimiter(times=2, seconds=5)` from `src/routes/contacts.py`. -/
def createContactLimit : RouteLimit := { times := 2, seconds := 5 }

/-- Gate verdict; rejection carries the window remainder as the
retry-after hint (§4.4). -/
inductive GateOutcome where
  | accept
  | rateLimited (retryAfter : Nat)
deriving DecidableEq, Repr

/-- Counter value for one (identity, route) key: window start plus
count (§3); `none` is the Idle state. -/
structure Window where
  start : Nat
  count : Nat
deriving DecidableEq, Repr

/-- Modelled from the spec: one admission step (§4.4).  A request with
no active window, or after the window elapsed, starts a fresh window
with count 1 and is admitted; below the limit the count increments and
the request is admitted; at the limit the request is rejected with the
window remainder and the count is not incremented past the limit. -/
def gateStep (rl : RouteLimit) (now : Nat) : Option Window → GateOutcome × Option Window
  | none => (.accept, some ⟨now, 1⟩)
  | some w =>
      if w.start + rl.seconds ≤ now then (.accept, some ⟨now, 1⟩)
      else if w.count < rl.times then (.accept, some ⟨w.start, w.count + 1⟩)
      else (.rateLimited (w.start + rl.seconds - now), some w)

/-- Count stored under a key. -/
def windowCount : Option Window → Nat
  | none => 0
  | some w => w.count

/-! ## Helper lemmas -/

/-- Row transformations that keep the email column commute with lookup
by email. -/
theorem get_user_by_email_map (g : User → User) (hg : ∀ u, (g u).email = u.email)
    (email : String) (db : List User) :
    get_user_by_email email (db.map g) = (get_user_by_email email db).map g := by
  unfold get_user_by_email
  rw [List.find?_map g db]
  have hp : ((fun u : User => u.email == email) ∘ g) = (fun u : User => u.email == email) := by
    funext v
    simp [Function.comp, hg]
  rw [hp]

/-- After `update_token`, every row carrying the account's id holds the
written token. -/
theorem update_token_mem (u : User) (tok : Option String) (db : List User)
    (v : User) (hv : v ∈ update_token u tok db) (hid : v.id = u.id) :
    v.refresh_token = tok := by
  unfold update_token at hv
  obtain ⟨w, hw, rfl⟩ := List.mem_map.mp hv
  by_cases h : (w.id == u.id) = true
  · simp [h]
  · simp only [h, if_neg, Bool.false_eq_true, not_false_eq_true, if_false] at hid ⊢
    exact absurd (beq_iff_eq.mpr hid) h

/-- The `setConfirmed` rewrite keeps the email column. -/
theorem setConfirmed_email (uid : Nat) (v : User) :
    (setConfirmed uid v).email = v.email := by
  by_cases h : v.id = uid <;> simp [setConfirmed, h]

/-- The `setConfirmed` rewrite keeps the id column. -/
theorem setConfirmed_id (uid : Nat) (v : User) :
    (setConfirmed uid v).id = v.id := by
  by_cases h : v.id = uid <;> simp [setConfirmed, h]

/-- The `setConfirmed` rewrite is idempotent. -/
theorem setConfirmed_idem (uid : Nat) :
    setConfirmed uid ∘ setConfirmed uid = setConfirmed uid := by
  funext v
  simp only [Function.comp_apply]
  by_cases h : v.id = uid <;> simp [setConfirmed, h]

/-- Rows surviving `birthScan` come from its input list. -/
theorem birthScan_subset (today : AppDate) :
    ∀ l r, birthScan today l = some r → r ⊆ l := by
  intro l
  induction l with
  | nil =>
      intro r h
      simp only [birthScan] at h
      cases Option.some.inj h
      exact List.nil_subset _
  | cons c t ih =>
      intro r h
      cases hb : replaceYear today.year c.date_of_birth with
      | none =>
          simp only [birthScan, hb] at h
          exact Option.noConfusion h
      | some b =>
          cases hs : birthScan today t with
          | none =>
              simp only [birthScan, hb, hs] at h
              exact Option.noConfusion h
          | some r0 =>
              simp only [birthScan, hb, hs] at h
              have hr := Option.some.inj h
              by_cases hcond : (dateLe today b && dateLe b (addDays 7 today)) = true
              · rw [if_pos hcond] at hr
                rw [← hr]
                exact List.cons_subset.mpr
                  ⟨List.mem_cons_self c t, (ih r0 hs).trans (List.subset_cons_self c t)⟩
              · rw [if_neg hcond] at hr
                rw [← hr]
                exact (ih r0 hs).trans (List.subset_cons_self c t)

/-- Success branch of `refresh`: valid token matching the stored value
rotates through `issue_pair`. -/
theorem refresh_ok (cfg : TokenConfig) (now : Nat) (t : String) (db : List User)
    (c : Claims) (u : User)
    (hdec : decode cfg.key now t = Except.ok c)
    (hsc : c.scope = Scope.refresh)
    (hu : get_user_by_email c.subject db = some u)
    (ht : u.refresh_token = some t) :
    refresh cfg now t db = Except.ok (issue_pair cfg now u db) := by
  simp [refresh, hdec, hsc, hu, ht]

/-- Revocation branch of `refresh`: a decodable refresh-scope token
that differs from the stored value fails with `RevokedSession`. -/
theorem refresh_revoked (cfg : TokenConfig) (now : Nat) (t : String) (db : List User)
    (c : Claims) (u : User)
    (hdec : decode cfg.key now t = Except.ok c)
    (hsc : c.scope = Scope.refresh)
    (hu : get_user_by_email c.subject db = some u)
    (ht : u.refresh_token ≠ some t) :
    refresh cfg now t db = Except.error AuthErr.revokedSession := by
  simp [refresh, hdec, hsc, hu, ht]

/-- Core of the rotation argument: a successful `refresh` at `nowA`
rotates the stored token, so a second `refresh` of the same string at
`nowB` hits the revocation branch. -/
theorem refresh_pair_core (cfg : TokenConfig) (nowA nowB : Nat) (t : String)
    (db : List User) (c : Claims) (u : User)
    (hdecA : decode cfg.key nowA t = Except.ok c)
    (hdecB : decode cfg.key nowB t = Except.ok c)
    (hsc : c.scope = Scope.refresh)
    (hu : get_user_by_email c.subject db = some u)
    (ht : u.refresh_token = some t)
    (hneA : mkRefreshToken cfg nowA u.email ≠ t) :
    refresh cfg nowA t db = Except.ok (issue_pair cfg nowA u db) ∧
    refresh cfg nowB t (issue_pair cfg nowA u db).2 = Except.error AuthErr.revokedSession := by
  refine ⟨refresh_ok cfg nowA t db c u hdecA hsc hu ht, ?_⟩
  have h2 : (issue_pair cfg nowA u db).2 =
      update_token u (some (mkRefreshToken cfg nowA u.email)) db := rfl
  set r := mkRefreshToken cfg nowA u.email with hr
  have hg : ∀ v : User,
      ((fun v => if v.id == u.id then { v with refresh_token := some r } else v) v).email
        = v.email := by
    intro v
    by_cases h : (v.id == u.id) = true <;> simp [h]
  have hlook : get_user_by_email c.subject (issue_pair cfg nowA u db).2 =
      some (if u.id == u.id then { u with refresh_token := some r } else u) := by
    rw [h2]
    unfold update_token
    rw [get_user_by_email_map _ hg c.subject db, hu]
    rfl
  have hlook2 : get_user_by_email c.subject (issue_pair cfg nowA u db).2 =
      some { u with refresh_token := some r } := by
    rw [hlook]
    simp
  refine refresh_revoked cfg nowB t _ c _ hdecB hsc hlook2 ?_
  simp only [ne_eq, Option.some.injEq]
  exact hneA

/-! ## Witness fixtures -/

/-- Concrete configuration used by the witnesses. -/
def cfg0 : TokenConfig := ⟨7, 10, 100, 50⟩

/-- Concrete account used by the witnesses. -/
def u0 : User := ⟨1, "bob", "bob@example.net", "pw", none, some "oldtok", true⟩

/-- Refresh token minted for `u0` at time 0. -/
def tok0 : String := mkRefreshToken cfg0 0 u0.email

/-- Account `u0` with `tok0` stored as its live refresh token. -/
def u1 : User := { u0 with refresh_token := some tok0 }

/-- Row of `u0` after a rotation at time 0. -/
def wRot : User := { u0 with refresh_token := some tok0 }

/-! ## Claims -/

/-- C1: issuing a new access/refresh pair via `issue_pair` overwrites
the account's stored refresh token with the new value, so the
previously stored refresh token value (whenever it differs from the
newly minted string) is no longer equal to the stored field
afterwards — at most one refresh token is live per account. -/
theorem issue_pair_overwrites (cfg : TokenConfig) (now : Nat) (u : User)
    (db : List User) (old : String)
    (hne : old ≠ mkRefreshToken cfg now u.email) :
    ∀ v ∈ (issue_pair cfg now u db).2, v.id = u.id →
      v.refresh_token = some (mkRefreshToken cfg now u.email) ∧
      v.refresh_token ≠ some old := by
  intro v hv hid
  have h2 : (issue_pair cfg now u db).2 =
      update_token u (some (mkRefreshToken cfg now u.email)) db := rfl
  rw [h2] at hv
  have hrt := update_token_mem u _ db v hv hid
  refine ⟨hrt, ?_⟩
  rw [hrt]
  simp only [ne_eq, Option.some.injEq]
  exact fun h => hne h.symm

set_option maxRecDepth 40000 in
/-- Witness for C1 at a concrete store: the rotated row holds the new
token and no longer equals the old value. -/
theorem issue_pair_overwrites_witness :
    wRot.refresh_token = some (mkRefreshToken cfg0 0 u0.email) ∧
    wRot.refresh_token ≠ some "oldtok" :=
  issue_pair_overwrites cfg0 0 u0 [u0] "oldtok" (by decide) wRot (by decide) (by decide)

/-- C2: when `refresh t` succeeds (the token decodes, carries refresh
scope, resolves its subject and equals the stored value), an
immediately following second `refresh t` fails with `RevokedSession`,
because the stored token has been rotated to a different string. -/
theorem refresh_single_use (cfg : TokenConfig) (now : Nat) (t : String)
    (db : List User) (c : Claims) (u : User)
    (hdec : decode cfg.key now t = Except.ok c)
    (hsc : c.scope = Scope.refresh)
    (hu : get_user_by_email c.subject db = some u)
    (ht : u.refresh_token = some t)
    (hne : mkRefreshToken cfg now u.email ≠ t) :
    refresh cfg now t db = Except.ok (issue_pair cfg now u db) ∧
    refresh cfg now t (issue_pair cfg now u db).2 = Except.error AuthErr.revokedSession :=
  refresh_pair_core cfg now now t db c u hdec hdec hsc hu ht hne

set_option maxRecDepth 40000 in
/-- Witness for C2 at a concrete store: the first refresh succeeds, the
replay fails with `RevokedSession`. -/
theorem refresh_single_use_witness :
    refresh cfg0 1 tok0 [u1] = Except.ok (issue_pair cfg0 1 u1 [u1]) ∧
    refresh cfg0 1 tok0 (issue_pair cfg0 1 u1 [u1]).2 =
      Except.error AuthErr.revokedSession :=
  refresh_single_use cfg0 1 tok0 [u1] ⟨"bob@example.net", Scope.refresh, 0, 100⟩ u1
    (by decide) (by decide) (by decide) (by decide) (by decide)

/-- C8: two callers racing `refresh` on the same valid token, executed
as the two possible interleavings of the atomic compare-and-rotate
transactions, always produce exactly one new pair and one
`RevokedSession`; both orders are covered, so both calls can never
succeed. -/
theorem refresh_race_exactly_one (cfg : TokenConfig) (now1 now2 : Nat) (t : String)
    (db : List User) (c : Claims) (u : User)
    (hdec1 : decode cfg.key now1 t = Except.ok c)
    (hdec2 : decode cfg.key now2 t = Except.ok c)
    (hsc : c.scope = Scope.refresh)
    (hu : get_user_by_email c.subject db = some u)
    (ht : u.refresh_token = some t)
    (hne1 : mkRefreshToken cfg now1 u.email ≠ t)
    (hne2 : mkRefreshToken cfg now2 u.email ≠ t) :
    (refresh cfg now1 t db = Except.ok (issue_pair cfg now1 u db) ∧
      refresh cfg now2 t (issue_pair cfg now1 u db).2 =
        Except.error AuthErr.revokedSession) ∧
    (refresh cfg now2 t db = Except.ok (issue_pair cfg now2 u db) ∧
      refresh cfg now1 t (issue_pair cfg now2 u db).2 =
        Except.error AuthErr.revokedSession) :=
  ⟨refresh_pair_core cfg now1 now2 t db c u hdec1 hdec2 hsc hu ht hne1,
   refresh_pair_core cfg now2 now1 t db c u hdec2 hdec1 hsc hu ht hne2⟩

set_option maxRecDepth 40000 in
/-- Witness for C8 at a concrete store and two concrete schedules. -/
theorem refresh_race_exactly_one_witness :
    (refresh cfg0 1 tok0 [u1] = Except.ok (issue_pair cfg0 1 u1 [u1]) ∧
      refresh cfg0 2 tok0 (issue_pair cfg0 1 u1 [u1]).2 =
        Except.error AuthErr.revokedSession) ∧
    (refresh cfg0 2 tok0 [u1] = Except.ok (issue_pair cfg0 2 u1 [u1]) ∧
      refresh cfg0 1 tok0 (issue_pair cfg0 2 u1 [u1]).2 =
        Except.error AuthErr.revokedSession) :=
  refresh_race_exactly_one cfg0 1 2 tok0 [u1] ⟨"bob@example.net", Scope.refresh, 0, 100⟩ u1
    (by decide) (by decide) (by decide) (by decide) (by decide) (by decide) (by decide)

/-- C3: consuming a confirmation token for an already-confirmed
account succeeds without error and leaves the store unchanged (so
`confirmed` stays `true`), and the underlying repository operation
`confirmed_email` is idempotent: its result rows with the account's id
are confirmed, and applying it a second time yields the same store. -/
theorem consume_confirmed_idempotent (cfg : TokenConfig) (now : Nat) (t : String)
    (db : List User) (c : Claims) (u : User)
    (hdec : decode cfg.key now t = Except.ok c)
    (hsc : c.scope = Scope.emailConfirm)
    (hu : get_user_by_email c.subject db = some u)
    (hc : u.confirmed = true) :
    consume cfg now t db = Except.ok db ∧
    (∀ db1, confirmed_email c.subject db = some db1 →
      (∀ v ∈ db1, v.id = u.id → v.confirmed = true) ∧
      confirmed_email c.subject db1 = some db1) := by
  constructor
  · simp [consume, hdec, hsc, hu, hc]
  · intro db1 h1
    simp only [confirmed_email, hu] at h1
    have hdb1 : db1 = db.map (setConfirmed u.id) := (Option.some.inj h1).symm
    constructor
    · intro v hv hid
      rw [hdb1] at hv
      obtain ⟨w, hw, rfl⟩ := List.mem_map.mp hv
      by_cases h : w.id = u.id
      · simp [setConfirmed, h]
      · have hsw : setConfirmed u.id w = w := by simp [setConfirmed, h]
        rw [hsw] at hid
        exact absurd hid h
    · have hlook : get_user_by_email c.subject db1 = some (setConfirmed u.id u) := by
        rw [hdb1,
          get_user_by_email_map (setConfirmed u.id) (setConfirmed_email u.id) c.subject db, hu]
        rfl
      simp only [confirmed_email, hlook, setConfirmed_id]
      rw [hdb1, List.map_map, setConfirmed_idem]

set_option maxRecDepth 40000 in
/-- Witness for C3 at a concrete store: consuming a confirmation token
of the already-confirmed account `u0` succeeds and changes nothing. -/
theorem consume_confirmed_idempotent_witness :
    consume cfg0 0 (mkConfirmToken cfg0 0 "bob@example.net") [u0] = Except.ok [u0] :=
  (consume_confirmed_idempotent cfg0 0 (mkConfirmToken cfg0 0 "bob@example.net") [u0]
    ⟨"bob@example.net", Scope.emailConfirm, 0, 50⟩ u0
    (by decide) (by decide) (by decide) (by decide)).1

/-- C4: consuming a confirmation token whose subject email resolves to
no account fails with the distinguishable `AccountNotFound` outcome;
the failure carries no store, so no account state is modified. -/
theorem consume_missing_account (cfg : TokenConfig) (now : Nat) (t : String)
    (db : List User) (c : Claims)
    (hdec : decode cfg.key now t = Except.ok c)
    (hsc : c.scope = Scope.emailConfirm)
    (hu : get_user_by_email c.subject db = none) :
    consume cfg now t db = Except.error AuthErr.accountNotFound := by
  simp [consume, hdec, hsc, hu]

set_option maxRecDepth 40000 in
/-- Witness for C4: a confirmation token for an unknown email fails
with `AccountNotFound` on a concrete store. -/
theorem consume_missing_account_witness :
    consume cfg0 0 (mkConfirmToken cfg0 0 "ghost@example.net") [u0] =
      Except.error AuthErr.accountNotFound :=
  consume_missing_account cfg0 0 (mkConfirmToken cfg0 0 "ghost@example.net") [u0]
    ⟨"ghost@example.net", Scope.emailConfirm, 0, 50⟩
    (by decide) (by decide) (by decide)

/-- C5: under the `create_contact` route configuration of 2 requests
per 5-second window, three requests from one identity inside the
window are admitted, admitted, and rejected with `RateLimited`
carrying the window remainder; the first request at or after the
window's end is admitted with a fresh count of 1; and no step ever
pushes the stored count past the limit. -/
theorem rate_limit_two_per_five (t1 t2 t3 t4 : Nat)
    (h2 : t2 < t1 + 5) (h3 : t3 < t1 + 5) (h4 : t1 + 5 ≤ t4) :
    gateStep createContactLimit t1 none = (GateOutcome.accept, some ⟨t1, 1⟩) ∧
    gateStep createContactLimit t2 (some ⟨t1, 1⟩) = (GateOutcome.accept, some ⟨t1, 2⟩) ∧
    gateStep createContactLimit t3 (some ⟨t1, 2⟩) =
      (GateOutcome.rateLimited (t1 + 5 - t3), some ⟨t1, 2⟩) ∧
    gateStep createContactLimit t4 (some ⟨t1, 2⟩) = (GateOutcome.accept, some ⟨t4, 1⟩) ∧
    (∀ now s, windowCount s ≤ createContactLimit.times →
      windowCount (gateStep createContactLimit now s).2 ≤ createContactLimit.times) := by
  refine ⟨rfl, ?_, ?_, ?_, ?_⟩
  · simp only [gateStep, createContactLimit]
    rw [if_neg (by omega), if_pos (by omega)]
  · simp only [gateStep, createContactLimit]
    rw [if_neg (by omega), if_neg (by omega)]
  · simp only [gateStep, createContactLimit]
    rw [if_pos (by omega)]
  · intro now s hs
    cases s with
    | none => simp [gateStep, windowCount, createContactLimit]
    | some w =>
      simp only [gateStep, createContactLimit, windowCount] at hs ⊢
      split_ifs with ha hb
      · simp [windowCount]
      · simp only [windowCount]
        omega
      · simpa [windowCount] using hs

set_option maxRecDepth 40000 in
/-- Witness for C5 at the concrete schedule 0, 1, 2, 5. -/
theorem rate_limit_two_per_five_witness :
    gateStep createContactLimit 0 none = (GateOutcome.accept, some ⟨0, 1⟩) ∧
    gateStep createContactLimit 1 (some ⟨0, 1⟩) = (GateOutcome.accept, some ⟨0, 2⟩) ∧
    gateStep createContactLimit 2 (some ⟨0, 2⟩) =
      (GateOutcome.rateLimited (0 + 5 - 2), some ⟨0, 2⟩) ∧
    gateStep createContactLimit 5 (some ⟨0, 2⟩) = (GateOutcome.accept, some ⟨5, 1⟩) ∧
    (∀ now s, windowCount s ≤ createContactLimit.times →
      windowCount (gateStep createContactLimit now s).2 ≤ createContactLimit.times) :=
  rate_limit_two_per_five 0 1 2 5 (by decide) (by decide) (by decide)

/-- C6 counterexample: a token whose `expires-at` (0) is earlier than
the current time (5) but whose transmitted signature is wrong fails
with `InvalidSignature`, not `Expired` — the signature is verified
before the expiry check, so "fails with `Expired` regardless of
signature validity" is false as stated. -/
theorem decode_expired_counterexample :
    parseToken "a@b|access|0|0|999999" =
      some (⟨"a@b", Scope.access, 0, 0⟩, 999999) ∧
    (⟨"a@b", Scope.access, 0, 0⟩ : Claims).exp < 5 ∧
    decode 7 5 "a@b|access|0|0|999999" = Except.error DecodeErr.invalidSignature ∧
    decode 7 5 "a@b|access|0|0|999999" ≠ Except.error DecodeErr.expired := by
  refine ⟨by decide, by decide, by decide, by decide⟩

/-- C6 amended: a token that parses and whose `expires-at` is earlier
than the current time never decodes successfully; it fails with
`Expired` when its signature is valid and with `InvalidSignature`
otherwise, the signature being verified before the expiry check. -/
theorem decode_expired_amended (key now : Nat) (t : String) (c : Claims) (sig : Nat)
    (hp : parseToken t = some (c, sig)) (hexp : c.exp < now) :
    exceptIsOk (decode key now t) = false ∧
    (sig = signPayload key (payloadString c) →
      decode key now t = Except.error DecodeErr.expired) ∧
    (sig ≠ signPayload key (payloadString c) →
      decode key now t = Except.error DecodeErr.invalidSignature) := by
  unfold decode
  rw [hp]
  by_cases h : sig = signPayload key (payloadString c)
  · simp [h, hexp, exceptIsOk]
  · simp [h, exceptIsOk]

set_option maxRecDepth 40000 in
/-- Witness for the amended C6: a validly signed expired token fails
with `Expired`. -/
theorem decode_expired_amended_witness :
    decode 7 5 (encode 7 ⟨"a@b", Scope.access, 0, 0⟩) = Except.error DecodeErr.expired :=
  (decode_expired_amended 7 5 (encode 7 ⟨"a@b", Scope.access, 0, 0⟩)
    ⟨"a@b", Scope.access, 0, 0⟩
    (signPayload 7 (payloadString ⟨"a@b", Scope.access, 0, 0⟩))
    (by decide) (by decide)).2.1 rfl

/-- C7: every failure of `authenticate` — malformed token, invalid
signature, expiry, wrong scope, or unresolvable subject email — maps
to the same uniform `Unauthorized` wire response, so responses do not
reveal which validation step failed or whether the email exists; any
two non-rate-limit error kinds are indistinguishable at the boundary,
and only `RateLimited` maps to a distinct response. -/
theorem authenticate_uniform_unauthorized :
    (∀ cfg now t db e, authenticate cfg now t db = Except.error e →
      toResponse e = WireResponse.unauthorized) ∧
    (∀ e1 e2, e1 ≠ AuthErr.rateLimited → e2 ≠ AuthErr.rateLimited →
      toResponse e1 = toResponse e2) ∧
    (∀ e, e ≠ AuthErr.rateLimited → toResponse AuthErr.rateLimited ≠ toResponse e) := by
  refine ⟨?_, ?_, ?_⟩
  · intro cfg now t db e h
    have hne : e ≠ AuthErr.rateLimited := by
      intro he
      subst he
      unfold authenticate at h
      cases hd : decode cfg.key now t with
      | error e0 =>
          rw [hd] at h
          cases e0 <;> simp [ofDecodeErr] at h
      | ok c =>
          rw [hd] at h
          by_cases hs : c.scope = Scope.access
          · simp only [hs, if_true] at h
            cases hl : get_user_by_email c.subject db with
            | none => rw [hl] at h; simp at h
            | some u => rw [hl] at h; simp at h
          · simp [hs] at h
    cases e <;> first | rfl | exact absurd rfl hne
  · intro e1 e2 h1 h2
    cases e1 <;> cases e2 <;>
      first | rfl | exact absurd rfl h1 | exact absurd rfl h2
  · intro e he
    cases e <;> first | exact absurd rfl he | decide

/-- Witness for C7: a malformed bearer token produces the uniform
`Unauthorized` response on a concrete request. -/
theorem authenticate_uniform_unauthorized_witness :
    toResponse AuthErr.malformed = WireResponse.unauthorized :=
  authenticate_uniform_unauthorized.1 cfg0 0 "" [u0] AuthErr.malformed (by decide)

/-- C9: the contact repository is isolated per user.  When every row
carrying the requested id belongs to someone else, `get_contact`,
`update_contact` and `remove_contact` return `None` and leave the
store unchanged; `get_contacts`, `find_contacts` and `get_birthdays`
only ever return rows owned by the requesting user; and all three
queries depend only on the user's own rows, so two stores agreeing on
the user's rows are indistinguishable to that user. -/
theorem contacts_user_isolation (u : User) (cid : Nat) (body : ContactModel)
    (skip limit : Nat) (today : AppDate) (db db2 : List Contact)
    (hforeign : ∀ c ∈ db, c.id = cid → c.user_id ≠ some u.id)
    (hsame : db.filter (ownedBy u) = db2.filter (ownedBy u)) :
    (get_contact u cid db = none ∧
     update_contact u cid body db = (none, db) ∧
     remove_contact u cid db = (none, db)) ∧
    ((∀ c ∈ get_contacts u skip limit db, c.user_id = some u.id) ∧
     (∀ fn ln em c, c ∈ find_contacts db u fn ln em → c.user_id = some u.id) ∧
     (∀ l, get_birthdays u today db = some l → ∀ c ∈ l, c.user_id = some u.id)) ∧
    (get_contacts u skip limit db = get_contacts u skip limit db2 ∧
     (∀ fn ln em, find_contacts db u fn ln em = find_contacts db2 u fn ln em) ∧
     get_birthdays u today db = get_birthdays u today db2) := by
  have hfind : db.find? (fun c => c.id == cid && ownedBy u c) = none := by
    rw [List.find?_eq_none]
    intro c hc hp
    rw [Bool.and_eq_true, beq_iff_eq] at hp
    have h2 : c.user_id = some u.id := by simpa [ownedBy] using hp.2
    exact hforeign c hc hp.1 h2
  refine ⟨⟨?_, ?_, ?_⟩, ⟨?_, ?_, ?_⟩, ⟨?_, ?_, ?_⟩⟩
  · unfold get_contact
    exact hfind
  · unfold update_contact
    rw [hfind]
  · unfold remove_contact
    rw [hfind]
  · intro c hc
    have h1 : c ∈ db.filter (ownedBy u) :=
      List.drop_subset skip _ (List.take_subset limit _ hc)
    simpa [ownedBy] using (List.mem_filter.mp h1).2
  · intro fn ln em c hc
    have hsub : find_contacts db u fn ln em ⊆ db.filter (ownedBy u) := by
      simp only [find_contacts]
      split_ifs <;>
        first
          | exact List.Subset.refl _
          | exact List.filter_subset' _
          | exact (List.filter_subset' _).trans (List.filter_subset' _)
          | exact ((List.filter_subset' _).trans (List.filter_subset' _)).trans
              (List.filter_subset' _)
    simpa [ownedBy] using (List.mem_filter.mp (hsub hc)).2
  · intro l hl c hc
    unfold get_birthdays at hl
    have h1 := birthScan_subset today _ l hl hc
    simpa [ownedBy] using (List.mem_filter.mp h1).2
  · unfold get_contacts
    rw [hsame]
  · intro fn ln em
    simp only [find_contacts]
    rw [hsame]
  · unfold get_birthdays
    rw [hsame]

/-- Foreign contact used by the C9 witness: id 5, owned by user 2. -/
def cF : Contact := ⟨5, "Eve", "X", "e@x", "9", ⟨1990, 1, 1⟩, "r", some 2⟩

/-- Witness for C9 at a concrete store: user `u0` cannot read the
foreign contact, and a store holding only foreign rows is
indistinguishable from the empty store. -/
theorem contacts_user_isolation_witness :
    get_contact u0 5 [cF] = none ∧
    get_contacts u0 0 10 [cF] = get_contacts u0 0 10 [] := by
  have h := contacts_user_isolation u0 5 ⟨"a", "b", "c", "d", ⟨1990, 1, 1⟩, "e"⟩
    0 10 ⟨2024, 1, 1⟩ [cF] [] (by decide) (by decide)
  exact ⟨h.1.1, h.2.2.1⟩

/-- C10: every account built by `create_user` starts unconfirmed and
with no live refresh token, whatever the request body, avatar and
assigned id; and the only other user-repository write that touches an
existing account outside confirmation and token issuance,
`update_avatar`, changes neither column. -/
theorem create_user_defaults :
    (∀ body avatar newId,
      (create_user body avatar newId).confirmed = false ∧
      (create_user body avatar newId).refresh_token = none) ∧
    (∀ email url db p, update_avatar email url db = some p →
      p.2.map User.confirmed = db.map User.confirmed ∧
      p.2.map User.refresh_token = db.map User.refresh_token) := by
  constructor
  · intro body avatar newId
    exact ⟨rfl, rfl⟩
  · intro email url db p h
    unfold update_avatar at h
    cases hu : get_user_by_email email db with
    | none => rw [hu] at h; simp at h
    | some u =>
        rw [hu] at h
        simp only [Option.some.injEq] at h
        have h2 : p.2 =
            db.map (fun v => if v.id == u.id then { v with avatar := some url } else v) := by
          rw [← h]
        have hgc : (User.confirmed ∘
            fun v => if v.id == u.id then { v with avatar := some url } else v)
            = User.confirmed := by
          funext v
          by_cases hv : v.id = u.id <;> simp [Function.comp, hv]
        have hgr : (User.refresh_token ∘
            fun v => if v.id == u.id then { v with avatar := some url } else v)
            = User.refresh_token := by
          funext v
          by_cases hv : v.id = u.id <;> simp [Function.comp, hv]
        constructor
        · rw [h2, List.map_map, hgc]
        · rw [h2, List.map_map, hgr]

set_option maxRecDepth 40000 in
/-- Witness for C10 at concrete inputs: a freshly created account is
unconfirmed with no token, and a concrete avatar update preserves both
columns. -/
theorem create_user_defaults_witness :
    ((create_user ⟨"ann", "ann@example.net", "secret"⟩ none 3).confirmed = false ∧
      (create_user ⟨"ann", "ann@example.net", "secret"⟩ none 3).refresh_token = none) ∧
    ([{ u0 with avatar := some "http" }].map User.confirmed = [u0].map User.confirmed ∧
      [{ u0 with avatar := some "http" }].map User.refresh_token =
        [u0].map User.refresh_token) :=
  ⟨create_user_defaults.1 ⟨"ann", "ann@example.net", "secret"⟩ none 3,
   create_user_defaults.2 "bob@example.net" "http" [u0]
     ({ u0 with avatar := some "http" }, [{ u0 with avatar := some "http" }]) (by decide)⟩

end HW11
